import Mathlib

/-!
Verification of the conversation-state and request/response normalization layer
of the survivalfox chat client (src/dev/frontend/app/page.tsx and
src/dev/frontend/lib/api.ts), shallowly embedded in Lean.

JavaScript numbers are modelled as rationals (exact arithmetic; NaN and the
floating-point grid are outside the model). JavaScript values crossing the
untyped gateway boundary are modelled by the inductive type JsValue below.
Browser localStorage is modelled as a record with one field per storage key,
and JSON (de)serialization of well-typed stored values as the identity.
-/

/- ### Model of untyped JavaScript values (gateway boundary) -/

/-- Untyped JavaScript values as seen by the gateway: the undefined value,
null, booleans, numbers, strings, arrays and plain objects (field list in
insertion order). -/
inductive JsValue where
  | undefined : JsValue
  | null : JsValue
  | bool (b : Bool) : JsValue
  | num (q : ℚ) : JsValue
  | str (s : String) : JsValue
  | arr (elems : List JsValue) : JsValue
  | obj (fields : List (String × JsValue)) : JsValue

/-- JavaScript truthiness of a value (undefined, null, false, 0 and the empty
string are falsy; arrays and objects are always truthy). -/
def jsTruthy : JsValue → Bool
  | .undefined => false
  | .null => false
  | .bool b => b
  | .num q => !(q == 0)
  | .str s => !(s == "")
  | .arr _ => true
  | .obj _ => true

/-- The JavaScript typeof operator on the modelled values; note that
typeof null and typeof of any array is the string object. -/
def jsTypeof : JsValue → String
  | .undefined => "undefined"
  | .null => "object"
  | .bool _ => "boolean"
  | .num _ => "number"
  | .str _ => "string"
  | .arr _ => "object"
  | .obj _ => "object"

/-- Property access v[k] on a modelled JavaScript value: on a plain object the
last binding of the key wins (as for duplicate keys in parsed JSON); string
keys on arrays and primitives yield undefined (prototype properties are outside
the model). -/
def JsValue.getProp (v : JsValue) (k : String) : JsValue :=
  match v with
  | .obj fields =>
      (fields.foldl (fun acc kv => if kv.1 = k then some kv.2 else acc) none).getD .undefined
  | _ => .undefined

/- ### Spoiler control (page.tsx, snapSpoilerLevel) -/

/-- Math.max on two (non-NaN) numbers. -/
def jsMax (a b : ℚ) : ℚ := if a < b then b else a

/-- Math.min on two (non-NaN) numbers. -/
def jsMin (a b : ℚ) : ℚ := if b < a then b else a

/-- Math.abs on a (non-NaN) number. -/
def jsAbs (q : ℚ) : ℚ := if q < 0 then -q else q

theorem jsMax_eq (a b : ℚ) : jsMax a b = max a b := by
  rw [jsMax]
  split_ifs with h
  · exact (max_eq_right h.le).symm
  · exact (max_eq_left (not_lt.mp h)).symm

theorem jsMin_eq (a b : ℚ) : jsMin a b = min a b := by
  rw [jsMin]
  split_ifs with h
  · exact (min_eq_right h.le).symm
  · exact (min_eq_left (not_lt.mp h)).symm

theorem jsAbs_eq (q : ℚ) : jsAbs q = |q| := by
  rw [jsAbs]
  split_ifs with h
  · exact (abs_of_neg h).symm
  · exact (abs_of_nonneg (not_lt.mp h)).symm

/-- The four canonical spoiler levels, in declaration order. -/
def SPOILER_SNAP_POINTS : List ℚ := [0, 33, 66, 100]

/-- Comparison of a candidate distance against the best distance so far;
none models the initial value Number.POSITIVE_INFINITY, which every
distance is strictly below. -/
def distLt (d : ℚ) : Option ℚ → Bool
  | none => true
  | some best => decide (d < best)

/-- The loop body of snapSpoilerLevel: given the clamped value, the pair of
best point and best distance so far, and the next snap point, keep the next
point exactly when its distance is strictly below the best so far. -/
def snapStep (clamped : ℚ) (acc : ℚ × Option ℚ) (p : ℚ) : ℚ × Option ℚ :=
  let d := jsAbs (clamped - p)
  if distLt d acc.2 then (p, some d) else acc

/-- snapSpoilerLevel: clamp the raw value to the interval from 0 to 100, then
scan the snap points in declaration order keeping the first point whose
distance is strictly smaller than the best so far (best starts at 0 with
distance infinity). -/
def snapSpoilerLevel (v : ℚ) : ℚ :=
  let clamped := jsMax 0 (jsMin 100 v)
  (SPOILER_SNAP_POINTS.foldl (snapStep clamped) ((0 : ℚ), (none : Option ℚ))).1

theorem snapStep_start (c b p : ℚ) :
    snapStep c (b, none) p = (p, some (jsAbs (c - p))) := rfl

theorem snapStep_take (c b d p : ℚ) (h : jsAbs (c - p) < d) :
    snapStep c (b, some d) p = (p, some (jsAbs (c - p))) := by
  have hc : distLt (jsAbs (c - p)) ((b, some d).2) = true := by
    simp [distLt, h]
  rw [snapStep, if_pos hc]

theorem snapStep_keep (c b d p : ℚ) (h : ¬ jsAbs (c - p) < d) :
    snapStep c (b, some d) p = (b, some d) := by
  have hc : ¬ distLt (jsAbs (c - p)) ((b, some d).2) = true := by
    simp [distLt, h]
  rw [snapStep, if_neg hc]

/-- The clamping step of snapSpoilerLevel, named for use in specifications. -/
def clampSpoiler (v : ℚ) : ℚ := jsMax 0 (jsMin 100 v)

theorem clampSpoiler_eq (v : ℚ) : clampSpoiler v = max 0 (min 100 v) := by
  rw [clampSpoiler, jsMin_eq, jsMax_eq]

theorem clampSpoiler_nonneg (v : ℚ) : 0 ≤ clampSpoiler v := by
  rw [clampSpoiler_eq]; exact le_max_left _ _

theorem clampSpoiler_le_100 (v : ℚ) : clampSpoiler v ≤ 100 := by
  rw [clampSpoiler_eq]
  exact max_le (by norm_num) (min_le_left _ _)

theorem clampSpoiler_eq_self (v : ℚ) (h0 : 0 ≤ v) (h1 : v ≤ 100) :
    clampSpoiler v = v := by
  rw [clampSpoiler_eq, min_eq_right h1, max_eq_right h0]

/-- Value of the snapping scan when the clamped input is at most the first
midpoint 16.5. -/
theorem snap_region1 (v : ℚ) (hhi : clampSpoiler v ≤ 33/2) : snapSpoilerLevel v = 0 := by
  have h0 : (0:ℚ) ≤ clampSpoiler v := clampSpoiler_nonneg v
  simp only [snapSpoilerLevel, SPOILER_SNAP_POINTS, List.foldl]
  rw [show jsMax 0 (jsMin 100 v) = clampSpoiler v from rfl]
  set c := clampSpoiler v with hc
  have e0 : jsAbs (c - 0) = c := by rw [jsAbs_eq, sub_zero, abs_of_nonneg h0]
  rw [snapStep_start, snapStep_keep, snapStep_keep, snapStep_keep]
  · rw [e0, jsAbs_eq, abs_of_nonpos (by linarith : c - 100 ≤ 0)]
    intro h
    linarith
  · rw [e0, jsAbs_eq, abs_of_nonpos (by linarith : c - 66 ≤ 0)]
    intro h
    linarith
  · rw [e0, jsAbs_eq, abs_of_nonpos (by linarith : c - 33 ≤ 0)]
    intro h
    linarith

/-- Value of the snapping scan strictly between the midpoints 16.5 and 49.5. -/
theorem snap_region2 (v : ℚ) (hlo : 33/2 < clampSpoiler v)
    (hhi : clampSpoiler v ≤ 99/2) : snapSpoilerLevel v = 33 := by
  have h0 : (0:ℚ) ≤ clampSpoiler v := clampSpoiler_nonneg v
  simp only [snapSpoilerLevel, SPOILER_SNAP_POINTS, List.foldl]
  rw [show jsMax 0 (jsMin 100 v) = clampSpoiler v from rfl]
  set c := clampSpoiler v with hc
  have e0 : jsAbs (c - 0) = c := by rw [jsAbs_eq, sub_zero, abs_of_nonneg h0]
  have h33 : jsAbs (c - 33) ≤ 33/2 := by
    rw [jsAbs_eq, abs_le]
    constructor <;> linarith
  rw [snapStep_start, snapStep_take, snapStep_keep, snapStep_keep]
  · rw [jsAbs_eq, abs_of_nonpos (by linarith : c - 100 ≤ 0)]
    intro h
    linarith
  · rw [jsAbs_eq, abs_of_nonpos (by linarith : c - 66 ≤ 0)]
    intro h
    linarith
  · rw [e0, jsAbs_eq, abs_lt]
    constructor <;> linarith

/-- Value of the snapping scan strictly between the midpoints 49.5 and 83. -/
theorem snap_region3 (v : ℚ) (hlo : 99/2 < clampSpoiler v)
    (hhi : clampSpoiler v ≤ 83) : snapSpoilerLevel v = 66 := by
  have h0 : (0:ℚ) ≤ clampSpoiler v := clampSpoiler_nonneg v
  simp only [snapSpoilerLevel, SPOILER_SNAP_POINTS, List.foldl]
  rw [show jsMax 0 (jsMin 100 v) = clampSpoiler v from rfl]
  set c := clampSpoiler v with hc
  have e0 : jsAbs (c - 0) = c := by rw [jsAbs_eq, sub_zero, abs_of_nonneg h0]
  have h66 : jsAbs (c - 66) ≤ 100 - c := by
    rw [jsAbs_eq, abs_le]
    constructor <;> linarith
  rw [snapStep_start, snapStep_take, snapStep_take, snapStep_keep]
  · rw [jsAbs_eq, abs_of_nonpos (by linarith : c - 100 ≤ 0), neg_sub]
    intro h
    linarith
  · rw [jsAbs_eq (c - 33), abs_of_nonneg (by linarith : (0:ℚ) ≤ c - 33),
      jsAbs_eq, abs_lt]
    constructor <;> linarith
  · rw [e0, jsAbs_eq, abs_lt]
    constructor <;> linarith

/-- Value of the snapping scan strictly above the midpoint 83. -/
theorem snap_region4 (v : ℚ) (hlo : 83 < clampSpoiler v) : snapSpoilerLevel v = 100 := by
  have h0 : (0:ℚ) ≤ clampSpoiler v := clampSpoiler_nonneg v
  have h100 : clampSpoiler v ≤ 100 := clampSpoiler_le_100 v
  simp only [snapSpoilerLevel, SPOILER_SNAP_POINTS, List.foldl]
  rw [show jsMax 0 (jsMin 100 v) = clampSpoiler v from rfl]
  set c := clampSpoiler v with hc
  have e0 : jsAbs (c - 0) = c := by rw [jsAbs_eq, sub_zero, abs_of_nonneg h0]
  rw [snapStep_start, snapStep_take, snapStep_take, snapStep_take]
  · rw [jsAbs_eq (c - 66), abs_of_nonneg (by linarith : (0:ℚ) ≤ c - 66),
      jsAbs_eq, abs_of_nonpos (by linarith : c - 100 ≤ 0), neg_sub]
    linarith
  · rw [jsAbs_eq (c - 33), abs_of_nonneg (by linarith : (0:ℚ) ≤ c - 33),
      jsAbs_eq, abs_lt]
    constructor <;> linarith
  · rw [e0, jsAbs_eq, abs_lt]
    constructor <;> linarith

theorem snap_at_0 : snapSpoilerLevel 0 = 0 :=
  snap_region1 0 (by rw [clampSpoiler_eq_self 0 le_rfl (by norm_num)]; norm_num)

theorem snap_at_33 : snapSpoilerLevel 33 = 33 :=
  snap_region2 33
    (by rw [clampSpoiler_eq_self 33 (by norm_num) (by norm_num)]; norm_num)
    (by rw [clampSpoiler_eq_self 33 (by norm_num) (by norm_num)]; norm_num)

theorem snap_at_66 : snapSpoilerLevel 66 = 66 :=
  snap_region3 66
    (by rw [clampSpoiler_eq_self 66 (by norm_num) (by norm_num)]; norm_num)
    (by rw [clampSpoiler_eq_self 66 (by norm_num) (by norm_num)]; norm_num)

theorem snap_at_100 : snapSpoilerLevel 100 = 100 :=
  snap_region4 100
    (by rw [clampSpoiler_eq_self 100 (by norm_num) le_rfl]; norm_num)

/-- C2: for every raw input value v, snapSpoilerLevel v is one of the four
canonical values 0, 33, 66, 100, and snapSpoilerLevel is idempotent. -/
theorem C2_snap_membership_idem (v : ℚ) :
    (snapSpoilerLevel v = 0 ∨ snapSpoilerLevel v = 33 ∨ snapSpoilerLevel v = 66 ∨
      snapSpoilerLevel v = 100) ∧
    snapSpoilerLevel (snapSpoilerLevel v) = snapSpoilerLevel v := by
  rcases le_or_lt (clampSpoiler v) (33/2) with h1 | h1
  · rw [snap_region1 v h1]
    exact ⟨Or.inl rfl, snap_at_0⟩
  · rcases le_or_lt (clampSpoiler v) (99/2) with h2 | h2
    · rw [snap_region2 v h1 h2]
      exact ⟨Or.inr (Or.inl rfl), snap_at_33⟩
    · rcases le_or_lt (clampSpoiler v) 83 with h3 | h3
      · rw [snap_region3 v h2 h3]
        exact ⟨Or.inr (Or.inr (Or.inl rfl)), snap_at_66⟩
      · rw [snap_region4 v h3]
        exact ⟨Or.inr (Or.inr (Or.inr rfl)), snap_at_100⟩

/-- C3: snapSpoilerLevel clamps its input to the interval from 0 to 100 and
returns a canonical value at minimum absolute distance from the clamped
value, ties at exact midpoints going to the earlier-declared (lower) canonical
value; in particular it maps 16 to 0, 17 to 33 and the midpoint 16.5 to 0. -/
theorem C3_snap_min_distance :
    (∀ v : ℚ, ∀ p ∈ SPOILER_SNAP_POINTS,
        |clampSpoiler v - snapSpoilerLevel v| ≤ |clampSpoiler v - p| ∧
        (|clampSpoiler v - p| = |clampSpoiler v - snapSpoilerLevel v| →
          snapSpoilerLevel v ≤ p)) ∧
    snapSpoilerLevel 16 = 0 ∧ snapSpoilerLevel 17 = 33 ∧ snapSpoilerLevel (33/2) = 0 := by
  refine ⟨?_, ?_, ?_, ?_⟩
  · intro v p hp
    have h0 : (0:ℚ) ≤ clampSpoiler v := clampSpoiler_nonneg v
    have h100 : clampSpoiler v ≤ 100 := clampSpoiler_le_100 v
    rw [SPOILER_SNAP_POINTS] at hp
    have E0 : |clampSpoiler v - 0| = clampSpoiler v := by
      rw [sub_zero]; exact abs_of_nonneg h0
    rcases le_or_lt (clampSpoiler v) (33/2) with h1 | h1
    · rw [snap_region1 v h1]
      have E33 : |clampSpoiler v - 33| = -(clampSpoiler v - 33) :=
        abs_of_nonpos (by linarith)
      have E66 : |clampSpoiler v - 66| = -(clampSpoiler v - 66) :=
        abs_of_nonpos (by linarith)
      have E100 : |clampSpoiler v - 100| = -(clampSpoiler v - 100) :=
        abs_of_nonpos (by linarith)
      fin_cases hp <;> refine ⟨?_, fun h => ?_⟩ <;>
        simp only [E0, E33, E66, E100] at * <;> linarith
    · rcases le_or_lt (clampSpoiler v) (99/2) with h2 | h2
      · rw [snap_region2 v h1 h2]
        have E66 : |clampSpoiler v - 66| = -(clampSpoiler v - 66) :=
          abs_of_nonpos (by linarith)
        have E100 : |clampSpoiler v - 100| = -(clampSpoiler v - 100) :=
          abs_of_nonpos (by linarith)
        rcases abs_cases (clampSpoiler v - 33) with ⟨E33, S33⟩ | ⟨E33, S33⟩ <;>
          fin_cases hp <;> refine ⟨?_, fun h => ?_⟩ <;>
          simp only [E0, E33, E66, E100] at * <;> linarith
      · rcases le_or_lt (clampSpoiler v) 83 with h3 | h3
        · rw [snap_region3 v h2 h3]
          have E33 : |clampSpoiler v - 33| = clampSpoiler v - 33 :=
            abs_of_nonneg (by linarith)
          have E100 : |clampSpoiler v - 100| = -(clampSpoiler v - 100) :=
            abs_of_nonpos (by linarith)
          rcases abs_cases (clampSpoiler v - 66) with ⟨E66, S66⟩ | ⟨E66, S66⟩ <;>
            fin_cases hp <;> refine ⟨?_, fun h => ?_⟩ <;>
            simp only [E0, E33, E66, E100] at * <;> linarith
        · rw [snap_region4 v h3]
          have E33 : |clampSpoiler v - 33| = clampSpoiler v - 33 :=
            abs_of_nonneg (by linarith)
          have E66 : |clampSpoiler v - 66| = clampSpoiler v - 66 :=
            abs_of_nonneg (by linarith)
          have E100 : |clampSpoiler v - 100| = -(clampSpoiler v - 100) :=
            abs_of_nonpos (by linarith)
          fin_cases hp <;> refine ⟨?_, fun h => ?_⟩ <;>
            simp only [E0, E33, E66, E100] at * <;> linarith
  · exact snap_region1 16 (by rw [clampSpoiler_eq_self 16 (by norm_num) (by norm_num)]; norm_num)
  · exact snap_region2 17
      (by rw [clampSpoiler_eq_self 17 (by norm_num) (by norm_num)]; norm_num)
      (by rw [clampSpoiler_eq_self 17 (by norm_num) (by norm_num)]; norm_num)
  · exact snap_region1 (33/2)
      (by rw [clampSpoiler_eq_self (33/2) (by norm_num) (by norm_num)])

/- ### Source records and the Source Normalizer (page.tsx) -/

/-- A source record attached to an assistant answer; every field is optional
(absent fields model absent JSON keys). -/
structure RagSource where
  title : Option String
  url : Option String
  source : Option String
  chunk_id : Option String
  author : Option String
  license_name : Option String
  license_url : Option String
deriving DecidableEq

/-- JSON string escaping for the serialization fallback of the dedup key
(quote and backslash; control characters do not occur in the records the
claims touch and are left unescaped by the model). -/
def jsonEscapeChar (c : Char) : String :=
  if c = '"' then "\\\"" else if c = '\\' then "\\\\" else String.singleton c

def jsonEscapeString (s : String) : String :=
  String.join (s.data.map jsonEscapeChar)

/-- JSON.stringify on a source record: the present fields are serialized in
declaration order (for backend-parsed records JavaScript preserves the JSON
text's key order; the model fixes the declaration order of the type). Only
used as the dedup-key fallback when url, title, source and chunk_id are all
empty or absent. -/
def jsonStringifySource (s : RagSource) : String :=
  let field := fun (k : String) (v : Option String) =>
    match v with
    | some str => ["\"" ++ jsonEscapeString k ++ "\":\"" ++ jsonEscapeString str ++ "\""]
    | none => []
  "\x7b" ++ String.intercalate ","
    (List.flatten [field "title" s.title, field "url" s.url, field "source" s.source,
      field "chunk_id" s.chunk_id, field "author" s.author,
      field "license_name" s.license_name, field "license_url" s.license_url]) ++ "\x7d"

/-- String.prototype.trim: drop whitespace from both ends (the claims only
exercise ASCII whitespace; the larger Unicode whitespace class stripped by
JavaScript behaves identically on the inputs under consideration). -/
def jsTrim (s : String) : String :=
  ⟨((s.data.dropWhile Char.isWhitespace).reverse.dropWhile Char.isWhitespace).reverse⟩

/-- The JavaScript pattern a?.trim() || b: take the trimmed string when the
field is present and its trimmed value is non-empty, otherwise fall through. -/
def jsOrElse (a : Option String) (b : String) : String :=
  match a with
  | some s => if s = "" then b else s
  | none => b

/-- sourceKey: the first non-empty value among trimmed url, title, source and
chunk_id, in that priority order, falling back to the JSON serialization of
the whole record. -/
def sourceKey (s : RagSource) : String :=
  jsOrElse (s.url.map jsTrim)
    (jsOrElse (s.title.map jsTrim)
      (jsOrElse (s.source.map jsTrim)
        (jsOrElse (s.chunk_id.map jsTrim) (jsonStringifySource s))))

/-- The loop of dedupeSources: iterate in input order carrying the set of
keys already inserted in the Map; a record is kept exactly when its key has
not been seen, in which case its key is added. The kept records, in order,
are the values of the insertion-ordered Map. -/
def dedupeGo (seen : List String) : List RagSource → List RagSource
  | [] => []
  | s :: rest =>
    if sourceKey s ∈ seen then dedupeGo seen rest
    else s :: dedupeGo (sourceKey s :: seen) rest

/-- dedupeSources: keep the first record for each dedup key, in order of
first appearance. -/
def dedupeSources (sources : List RagSource) : List RagSource :=
  dedupeGo [] sources

theorem dedupeGo_sublist (seen : List String) (xs : List RagSource) :
    (dedupeGo seen xs).Sublist xs := by
  induction xs generalizing seen with
  | nil => simp [dedupeGo]
  | cons s rest ih =>
    rw [dedupeGo]
    split_ifs with h
    · exact (ih seen).cons s
    · exact (ih (sourceKey s :: seen)).cons₂ s

theorem mem_dedupeGo_spec (seen : List String) (xs : List RagSource) (y : RagSource)
    (hy : y ∈ dedupeGo seen xs) :
    sourceKey y ∉ seen ∧
      xs.find? (fun x => sourceKey x == sourceKey y) = some y := by
  induction xs generalizing seen with
  | nil => simp [dedupeGo] at hy
  | cons s rest ih =>
    rw [dedupeGo] at hy
    split_ifs at hy with h
    · obtain ⟨hns, hfind⟩ := ih seen hy
      have hne : (sourceKey s == sourceKey y) = false := by
        rw [beq_eq_false_iff_ne]
        intro he
        exact hns (he ▸ h)
      rw [List.find?_cons_of_neg _ (by simp [hne]), hfind]
      exact ⟨hns, rfl⟩
    · rcases List.mem_cons.mp hy with rfl | hy'
      · exact ⟨h, by rw [List.find?_cons_of_pos _ (by simp)]⟩
      · obtain ⟨hns, hfind⟩ := ih (sourceKey s :: seen) hy'
        have hne : sourceKey y ≠ sourceKey s := by
          intro he
          exact hns (by rw [he]; exact List.mem_cons_self _ _)
        refine ⟨fun hsy => hns (List.mem_cons_of_mem _ hsy), ?_⟩
        rw [List.find?_cons_of_neg _ (by simp [hne.symm]), hfind]

theorem dedupeGo_keys_nodup (seen : List String) (xs : List RagSource) :
    ((dedupeGo seen xs).map sourceKey).Nodup := by
  induction xs generalizing seen with
  | nil => simp [dedupeGo]
  | cons s rest ih =>
    rw [dedupeGo]
    split_ifs with h
    · exact ih seen
    · rw [List.map_cons, List.nodup_cons]
      refine ⟨?_, ih (sourceKey s :: seen)⟩
      intro hmem
      obtain ⟨y, hy, hky⟩ := List.mem_map.mp hmem
      obtain ⟨hns, _⟩ := mem_dedupeGo_spec (sourceKey s :: seen) rest y hy
      exact hns (by rw [hky]; exact List.mem_cons_self _ _)

theorem dedupeGo_eq_self (seen : List String) (xs : List RagSource)
    (h1 : ∀ x ∈ xs, sourceKey x ∉ seen) (h2 : (xs.map sourceKey).Nodup) :
    dedupeGo seen xs = xs := by
  induction xs generalizing seen with
  | nil => rfl
  | cons s rest ih =>
    rw [dedupeGo, if_neg (h1 s (List.mem_cons_self _ _))]
    rw [List.map_cons, List.nodup_cons] at h2
    congr 1
    refine ih (sourceKey s :: seen) (fun x hx => ?_) h2.2
    intro hmem
    rcases List.mem_cons.mp hmem with he | hseen
    · exact h2.1 (he ▸ List.mem_map_of_mem sourceKey hx)
    · exact h1 x (List.mem_cons_of_mem _ hx) hseen

theorem dedupeSources_idem (xs : List RagSource) :
    dedupeSources (dedupeSources xs) = dedupeSources xs :=
  dedupeGo_eq_self [] _ (fun _ _ => List.not_mem_nil _) (dedupeGo_keys_nodup [] xs)

theorem dedupeGo_key_covered (seen : List String) (xs : List RagSource)
    (x : RagSource) (hx : x ∈ xs) :
    sourceKey x ∈ seen ∨ ∃ y ∈ dedupeGo seen xs, sourceKey y = sourceKey x := by
  induction xs generalizing seen with
  | nil => simp at hx
  | cons s rest ih =>
    rw [dedupeGo]
    rcases List.mem_cons.mp hx with rfl | hx'
    · split_ifs with h
      · exact Or.inl h
      · exact Or.inr ⟨x, List.mem_cons_self _ _, rfl⟩
    · split_ifs with h
      · exact ih seen hx'
      · rcases ih (sourceKey s :: seen) hx' with hseen | ⟨y, hy, hky⟩
        · rcases List.mem_cons.mp hseen with he | hseen'
          · exact Or.inr ⟨s, List.mem_cons_self _ _, he.symm⟩
          · exact Or.inl hseen'
        · exact Or.inr ⟨y, List.mem_cons_of_mem _ hy, hky⟩

/- ### Answer Gateway (lib/api.ts) -/

/-- The normalized error shape of the Answer Gateway. -/
structure RagApiError where
  name : String
  message : String
  status : Option Int
  statusText : Option String
  body : Option JsValue

/-- The typed request accepted by ragAnswer. docFilter distinguishes an
absent field (none) from an explicit null (some none). -/
structure RagAnswerRequest where
  sessionId : String
  threadId : Option String
  query : String
  spoilerLevel : ℚ
  matchCount : Option ℚ
  docFilter : Option (Option String)
  developerMode : Option Bool

/-- A hexadecimal digit under the case-insensitive regex flag. -/
def isHexDigitCI (c : Char) : Bool :=
  (('0' ≤ c) && (c ≤ '9')) || (('a' ≤ c) && (c ≤ 'f')) || (('A' ≤ c) && (c ≤ 'F'))

/-- Consume exactly n hex digits from the front of the character list. -/
def hexTake : Nat → List Char → Option (List Char)
  | 0, cs => some cs
  | _ + 1, [] => none
  | n + 1, c :: cs => if isHexDigitCI c then hexTake n cs else none

/-- Consume one character satisfying the predicate. -/
def expectChar (pred : Char → Bool) : List Char → Option (List Char)
  | c :: cs => if pred c then some cs else none
  | [] => none

/-- The anchored UUID test of api.ts: 8 hex digits, dash, 4 hex digits, dash,
a version digit 1 to 5 and 3 hex digits, dash, a variant character among
8, 9, a, b (case-insensitive) and 3 hex digits, dash, 12 hex digits. -/
def uuidRegexTest (s : String) : Bool :=
  (do
    let cs0 ← hexTake 8 s.toList
    let cs1 ← expectChar (· == '-') cs0
    let cs2 ← hexTake 4 cs1
    let cs3 ← expectChar (· == '-') cs2
    let cs4 ← expectChar (fun c => ('1' ≤ c) && (c ≤ '5')) cs3
    let cs5 ← hexTake 3 cs4
    let cs6 ← expectChar (· == '-') cs5
    let cs7 ← expectChar
      (fun c => c == '8' || c == '9' || c == 'a' || c == 'b' || c == 'A' || c == 'B') cs6
    let cs8 ← hexTake 3 cs7
    let cs9 ← expectChar (· == '-') cs8
    let cs10 ← hexTake 12 cs9
    if cs10.isEmpty then some () else none).isSome

/-- isValidUuid of api.ts on an untyped value: a string matching the UUID
pattern. -/
def isValidUuid : JsValue → Bool
  | .str s => uuidRegexTest s
  | _ => false

/-- The conditional thread_id field: included exactly when the supplied id is
truthy and passes the UUID check (the guard req.threadId and
isValidUuid(req.threadId) of api.ts). -/
def threadIdField (threadId : Option String) : List (String × JsValue) :=
  match threadId with
  | some t =>
      if t ≠ "" ∧ isValidUuid (JsValue.str t) = true then [("thread_id", JsValue.str t)]
      else []
  | none => []

/-- The conditional match_count field (typeof req.matchCount is a number). -/
def matchCountField : Option ℚ → List (String × JsValue)
  | some m => [("match_count", JsValue.num m)]
  | none => []

/-- The conditional doc_filter field (req.docFilter is not undefined; an
explicit null is forwarded as null). -/
def docFilterField : Option (Option String) → List (String × JsValue)
  | some (some s) => [("doc_filter", JsValue.str s)]
  | some none => [("doc_filter", JsValue.null)]
  | none => []

/-- The conditional developer_mode field (typeof req.developerMode is a
boolean). -/
def developerModeField : Option Bool → List (String × JsValue)
  | some b => [("developer_mode", JsValue.bool b)]
  | none => []

/-- The outbound request body built by ragAnswer, as an ordered field list:
query, session_id and spoilerLevel always; thread_id only when present,
truthy and passing the UUID check; then the optional knobs match_count,
doc_filter and developer_mode, each mirroring one conditional assignment of
api.ts in statement order. -/
def ragAnswerBody (req : RagAnswerRequest) : List (String × JsValue) :=
  [("query", JsValue.str req.query),
   ("session_id", JsValue.str req.sessionId),
   ("spoilerLevel", JsValue.num req.spoilerLevel)]
  ++ threadIdField req.threadId
  ++ matchCountField req.matchCount
  ++ docFilterField req.docFilter
  ++ developerModeField req.developerMode

/-- Outcome of one supabase.functions.invoke round-trip: the untyped response
data and an optional failure. A transport failure is represented directly by
the normalized RagApiError it is turned into (the reflection internals of
normalizeSupabaseFunctionError on JavaScript Error instances lie outside the
JsValue model and are not touched by any claim). -/
structure InvokeResult where
  data : JsValue
  error : Option RagApiError

/-- ragAnswer: build the body, invoke the remote endpoint on it, throw the
normalized error on a transport failure, reject a falsy or non-object
response, reject a response whose session_id or thread_id fails the UUID
check, and otherwise return the raw response unchanged. The remote service is
a function from the sent body to an invoke outcome. -/
def ragAnswer (req : RagAnswerRequest)
    (invoke : List (String × JsValue) → InvokeResult) :
    Except RagApiError JsValue :=
  let body := ragAnswerBody req
  let res := invoke body
  match res.error with
  | some e => .error e
  | none =>
    let data := res.data
    if jsTruthy data = false ∨ jsTypeof data ≠ "object" then
      .error { name := "RagApiError", message := "Invalid response payload",
               status := some 500, statusText := none, body := some data }
    else if isValidUuid (data.getProp "session_id") = false ∨
        isValidUuid (data.getProp "thread_id") = false then
      .error { name := "RagApiError",
               message := "Backend response missing session_id/thread_id",
               status := some 500, statusText := none, body := some data }
    else .ok data

/- ### Identity and Conversation Stores, Conversation Controller (page.tsx) -/

inductive ChatRole where
  | user : ChatRole
  | assistant : ChatRole
deriving DecidableEq

/-- A chat message of the conversation log. -/
structure ChatMessage where
  id : String
  role : ChatRole
  content : String
  createdAt : Int
  sources : Option (List RagSource)
  interaction_id : Option String
deriving DecidableEq

/-- The device's localStorage, one field per storage key used by the client
(survivalfox_session_id, survivalfox_thread_id, survivalfox_messages_v1,
survivalfox_game_id); none models an absent key. The message log is stored
structurally, JSON round-tripping of a well-typed log being the identity. -/
structure Storage where
  session : Option String
  thread : Option String
  messages : Option (List ChatMessage)
  gameId : Option String
deriving DecidableEq

/-- Truthiness of getItem's result (null and the empty string are falsy). -/
def jsTruthyOptStr : Option String → Bool
  | some s => !(s == "")
  | none => false

/-- getOrCreateSessionId: return the persisted session id when it is truthy,
otherwise persist and return a freshly generated identifier (the fresh
crypto.randomUUID output is the second argument). Returns the id and the
storage after the call. -/
def getOrCreateSessionId (storage : Storage) (freshId : String) : String × Storage :=
  match storage.session with
  | some existing =>
      if existing ≠ "" then (existing, storage)
      else (freshId, { storage with session := some freshId })
  | none => (freshId, { storage with session := some freshId })

/-- saveThreadId: a falsy argument removes the persisted thread id, a truthy
one overwrites it. -/
def saveThreadId (storage : Storage) (threadId : Option String) : Storage :=
  if jsTruthyOptStr threadId = false then { storage with thread := none }
  else { storage with thread := threadId }

/-- saveMessages: persist the serialized log (quota failures are swallowed in
the source and the model treats persistence as succeeding). -/
def saveMessages (storage : Storage) (messages : List ChatMessage) : Storage :=
  { storage with messages := some messages }

/-- The typed view of a successful gateway response, as cast by the
controller (RagAnswerResult in page.tsx). -/
structure RagAnswerResult where
  ok : Bool
  session_id : String
  thread_id : String
  answer : Option String
  sources : Option (List RagSource)
  interaction_id : Option String
deriving DecidableEq

/-- The client-side state owned by the Home component: identity, game theme,
spoiler preference, composer text, in-flight flag, displayed error, message
log, the message whose source details are open, and the device storage. -/
structure ControllerState where
  sessionId : String
  threadId : Option String
  gameId : String
  spoilerLevel : ℚ
  query : String
  loading : Bool
  err : Option RagApiError
  messages : List ChatMessage
  sourcesForMessageId : Option String
  storage : Storage

/-- resetThread: clear the thread id in memory and storage, clear the message
log in memory and storage, clear the displayed error, the composer text and
the open source-details selection. -/
def resetThread (st : ControllerState) : ControllerState :=
  let st1 := { st with threadId := none }
  let st2 := { st1 with storage := saveThreadId st1.storage none }
  let st3 := { st2 with messages := [] }
  let st4 := { st3 with storage := saveMessages st3.storage [] }
  let st5 := { st4 with err := none }
  let st6 := { st5 with query := "" }
  { st6 with sourcesForMessageId := none }

/-- The non-deterministic inputs of one onAsk run: the generated ids and
timestamps of the two messages and the outcome of the awaited gateway call
(already cast to the typed result on success). -/
structure AskEnv where
  userMsgId : String
  userNow : Int
  outcome : Except RagApiError RagAnswerResult
  assistantMsgId : String
  assistantNow : Int

/-- onAsk: guard on empty trimmed query, missing session id or an in-flight
ask; then set loading, clear the error, append the user message (persisting
the log), clear the composer; on success adopt the returned session and
thread ids (memory and storage) and append the assistant message with
deduplicated sources capped at 8; on failure record the error. Returns the
new state and the request sent, if any. -/
def onAsk (st : ControllerState) (env : AskEnv) :
    ControllerState × Option RagAnswerRequest :=
  let q := jsTrim st.query
  if q = "" ∨ st.sessionId = "" ∨ st.loading = true then (st, none)
  else
    let st1 := { st with loading := true, err := none }
    let userMsg : ChatMessage :=
      { id := env.userMsgId, role := .user, content := q, createdAt := env.userNow,
        sources := none, interaction_id := none }
    let msgs1 := st1.messages ++ [userMsg]
    let st2 := { st1 with messages := msgs1, storage := saveMessages st1.storage msgs1 }
    let st3 := { st2 with query := "" }
    let req : RagAnswerRequest :=
      { sessionId := st.sessionId, threadId := st.threadId, query := q,
        spoilerLevel := st.spoilerLevel, matchCount := none, docFilter := none,
        developerMode := none }
    match env.outcome with
    | .ok data =>
        let st4 := { st3 with sessionId := data.session_id,
                              storage := { st3.storage with session := some data.session_id } }
        let st5 := { st4 with threadId := some data.thread_id,
                              storage := saveThreadId st4.storage (some data.thread_id) }
        let assistantMsg : ChatMessage :=
          { id := env.assistantMsgId, role := .assistant,
            content := data.answer.getD "", createdAt := env.assistantNow,
            sources := some ((dedupeSources (data.sources.getD [])).take 8),
            interaction_id := data.interaction_id }
        let msgs2 := st5.messages ++ [assistantMsg]
        let st6 := { st5 with messages := msgs2, storage := saveMessages st5.storage msgs2 }
        ({ st6 with loading := false }, some req)
    | .error e =>
        ({ st3 with err := some e, loading := false }, some req)

/-- The source list rendered inline under an assistant bubble: the message's
stored sources, deduplicated and capped at 5. -/
def inlineDisplaySources (m : ChatMessage) : List RagSource :=
  (dedupeSources (m.sources.getD [])).take 5

/-- The source list rendered in the details modal: the message's stored
sources, deduplicated and capped at 8. -/
def detailDisplaySources (m : ChatMessage) : List RagSource :=
  (dedupeSources (m.sources.getD [])).take 8

/- ### Claim theorems -/

/-- A source record carrying only a url. -/
def srcU (u : String) : RagSource :=
  { title := none, url := some u, source := none, chunk_id := none,
    author := none, license_name := none, license_url := none }

/-- A source record carrying only a title. -/
def srcT (t : String) : RagSource :=
  { title := some t, url := none, source := none, chunk_id := none,
    author := none, license_name := none, license_url := none }

/-- C4: dedupeSources iterates in input order, keeps the first occurrence per
dedup key, drops later duplicates and preserves first-appearance order; it is
idempotent; and on two records with url a followed by one with title b it
yields exactly the two distinct records. -/
theorem C4_dedupe_first_occurrence :
    (∀ xs : List RagSource, (dedupeSources xs).Sublist xs) ∧
    (∀ xs : List RagSource, ∀ x ∈ xs,
        ∃ y ∈ dedupeSources xs, sourceKey y = sourceKey x) ∧
    (∀ xs : List RagSource, ((dedupeSources xs).map sourceKey).Nodup) ∧
    (∀ xs : List RagSource, ∀ y ∈ dedupeSources xs,
        xs.find? (fun x => sourceKey x == sourceKey y) = some y) ∧
    (∀ xs : List RagSource, dedupeSources (dedupeSources xs) = dedupeSources xs) ∧
    dedupeSources [srcU "a", srcU "a", srcT "b"] = [srcU "a", srcT "b"] := by
  refine ⟨fun xs => dedupeGo_sublist [] xs,
          fun xs x hx => ?_,
          fun xs => dedupeGo_keys_nodup [] xs,
          fun xs y hy => (mem_dedupeGo_spec [] xs y hy).2,
          dedupeSources_idem,
          by decide⟩
  rcases dedupeGo_key_covered [] xs x hx with h | h
  · exact absurd h (List.not_mem_nil _)
  · exact h

/-- C4 witness: the properties evaluated at the concrete three-record list. -/
theorem C4_dedupe_first_occurrence_witness :
    (dedupeSources [srcU "a", srcU "a", srcT "b"]).Sublist [srcU "a", srcU "a", srcT "b"] ∧
    List.find? (fun x => sourceKey x == sourceKey (srcT "b"))
      [srcU "a", srcU "a", srcT "b"] = some (srcT "b") :=
  ⟨C4_dedupe_first_occurrence.1 [srcU "a", srcU "a", srcT "b"],
   C4_dedupe_first_occurrence.2.2.2.1 [srcU "a", srcU "a", srcT "b"] (srcT "b") (by decide)⟩

/-- C7: a submit while an ask is in flight, with an empty trimmed query, or
with no session id available leaves the controller state unchanged, appends
nothing and dispatches no request. -/
theorem C7_entry_guard (st : ControllerState) (env : AskEnv)
    (h : st.loading = true ∨ jsTrim st.query = "" ∨ st.sessionId = "") :
    onAsk st env = (st, none) := by
  have h' : jsTrim st.query = "" ∨ st.sessionId = "" ∨ st.loading = true := by tauto
  simp only [onAsk]
  rw [if_pos h']

def C7state : ControllerState :=
  { sessionId := "s1", threadId := none, gameId := "valheim", spoilerLevel := 33,
    query := "hi", loading := true, err := none, messages := [],
    sourcesForMessageId := none,
    storage := { session := some "s1", thread := none, messages := none, gameId := none } }

def C7env : AskEnv :=
  { userMsgId := "u1", userNow := 0,
    outcome := Except.error { name := "RagApiError", message := "Request failed",
                              status := none, statusText := none, body := none },
    assistantMsgId := "a1", assistantNow := 0 }

/-- C7 witness: a concrete in-flight state on which a second submit is a
no-op. -/
theorem C7_entry_guard_witness : onAsk C7state C7env = (C7state, none) :=
  C7_entry_guard C7state C7env (Or.inl rfl)

/-- C9 counterexample: resetThread also clears the open source-details
selection, a state component outside the list the claim says is exactly
cleared. -/
def C9state : ControllerState :=
  { sessionId := "s1", threadId := some "t1", gameId := "valheim", spoilerLevel := 33,
    query := "abc", loading := false, err := none, messages := [],
    sourcesForMessageId := some "m1",
    storage := { session := some "s1", thread := some "t1", messages := some [],
                 gameId := some "valheim" } }

theorem C9_reset_thread_counterexample :
    (resetThread C9state).sourcesForMessageId ≠ C9state.sourcesForMessageId := by decide

/-- C9 amended: resetThread clears exactly the thread id (in memory and in
storage), the message log (in memory and in storage), the displayed error,
the input text, and the open source-details selection; everything else,
including the session identifier in memory and in storage, is unchanged. -/
theorem C9_reset_thread_frame (st : ControllerState) :
    resetThread st =
      { st with threadId := none, messages := [], err := none, query := "",
                sourcesForMessageId := none,
                storage := { st.storage with thread := none, messages := some [] } } := rfl

/-- C8 counterexample: with a persisted empty-string session value the
persisted value exists but is not returned unchanged; a fresh id is generated
and the storage is mutated. -/
def C8ceStorage : Storage :=
  { session := some "", thread := none, messages := none, gameId := none }

theorem C8_get_or_create_session_counterexample :
    C8ceStorage.session = some "" ∧
    (getOrCreateSessionId C8ceStorage "fresh-id").1 ≠ "" ∧
    (getOrCreateSessionId C8ceStorage "fresh-id").2 ≠ C8ceStorage := by decide

/-- C8 amended: getOrCreateSessionId returns a persisted non-empty value
unchanged without touching storage; on an absent or empty persisted value it
persists and returns the freshly generated id; and, provided the generated id
is non-empty (crypto.randomUUID never returns the empty string), a second
call without intervening storage mutation returns the same value and leaves
storage unchanged. It never fails (it is a total function). -/
theorem C8_get_or_create_session (storage : Storage) (f1 f2 : String) (h1 : f1 ≠ "") :
    (∀ s, storage.session = some s → s ≠ "" →
        getOrCreateSessionId storage f1 = (s, storage)) ∧
    ((storage.session = none ∨ storage.session = some "") →
        getOrCreateSessionId storage f1 = (f1, { storage with session := some f1 })) ∧
    getOrCreateSessionId (getOrCreateSessionId storage f1).2 f2 =
      ((getOrCreateSessionId storage f1).1, (getOrCreateSessionId storage f1).2) := by
  refine ⟨?_, ?_, ?_⟩
  · intro s hs hne
    simp [getOrCreateSessionId, hs, hne]
  · intro h
    rcases h with h | h <;> simp [getOrCreateSessionId, h]
  · rcases hs : storage.session with _ | s
    · simp [getOrCreateSessionId, hs, h1]
    · by_cases he : s = ""
      · subst he
        simp [getOrCreateSessionId, hs, h1]
      · simp [getOrCreateSessionId, hs, he]

def C8wStorage : Storage :=
  { session := none, thread := none, messages := none, gameId := none }

/-- C8 witness: two consecutive calls on an empty device agree. -/
theorem C8_get_or_create_session_witness :
    getOrCreateSessionId (getOrCreateSessionId C8wStorage "id-1").2 "id-2" =
      ((getOrCreateSessionId C8wStorage "id-1").1,
       (getOrCreateSessionId C8wStorage "id-1").2) :=
  (C8_get_or_create_session C8wStorage "id-1" "id-2" (by decide)).2.2

/-- C10 counterexample: a failed ask also clears the composer text, a state
change beyond the recorded error and the appended user message. -/
def C10err : RagApiError :=
  { name := "RagApiError", message := "Request failed",
    status := none, statusText := none, body := none }

def C10state : ControllerState :=
  { sessionId := "s1", threadId := some "t1", gameId := "valheim", spoilerLevel := 33,
    query := "warum ", loading := false, err := none, messages := [],
    sourcesForMessageId := none,
    storage := { session := some "s1", thread := some "t1", messages := some [],
                 gameId := some "valheim" } }

def C10env : AskEnv :=
  { userMsgId := "u1", userNow := 5, outcome := Except.error C10err,
    assistantMsgId := "a1", assistantNow := 6 }

theorem C10_failed_ask_counterexample :
    (onAsk C10state C10env).1.query ≠ C10state.query := by decide

/-- C10 amended: a failed ask is atomic with respect to identity state
(session id and thread id, in memory and in storage, keep their values from
before the ask), and its only state changes are the recorded error, the
single user message appended on entry (in memory and in the persisted log)
and the cleared input field; game, spoiler level, source-details selection
and the loading flag (false again after the run) are untouched. -/
theorem C10_failed_ask_frame (st : ControllerState) (env : AskEnv) (e : RagApiError)
    (hq : jsTrim st.query ≠ "") (hs : st.sessionId ≠ "") (hl : st.loading = false)
    (he : env.outcome = Except.error e) :
    (onAsk st env).1.sessionId = st.sessionId ∧
    (onAsk st env).1.threadId = st.threadId ∧
    (onAsk st env).1.storage.session = st.storage.session ∧
    (onAsk st env).1.storage.thread = st.storage.thread ∧
    (onAsk st env).1.storage.gameId = st.storage.gameId ∧
    (onAsk st env).1.err = some e ∧
    (onAsk st env).1.messages =
      st.messages ++ [{ id := env.userMsgId, role := ChatRole.user,
                        content := jsTrim st.query, createdAt := env.userNow,
                        sources := none, interaction_id := none }] ∧
    (onAsk st env).1.storage.messages = some ((onAsk st env).1.messages) ∧
    (onAsk st env).1.query = "" ∧
    (onAsk st env).1.loading = false ∧
    (onAsk st env).1.gameId = st.gameId ∧
    (onAsk st env).1.spoilerLevel = st.spoilerLevel ∧
    (onAsk st env).1.sourcesForMessageId = st.sourcesForMessageId := by
  have hguard : ¬(jsTrim st.query = "" ∨ st.sessionId = "" ∨ st.loading = true) := by
    push_neg
    exact ⟨hq, hs, by simp [hl]⟩
  simp only [onAsk, if_neg hguard, he]
  repeat' constructor

/-- C10 witness: the frame properties evaluated on a concrete failed ask. -/
theorem C10_failed_ask_frame_witness :
    (onAsk C10state C10env).1.sessionId = C10state.sessionId ∧
    (onAsk C10state C10env).1.threadId = C10state.threadId ∧
    (onAsk C10state C10env).1.storage.session = C10state.storage.session ∧
    (onAsk C10state C10env).1.storage.thread = C10state.storage.thread ∧
    (onAsk C10state C10env).1.storage.gameId = C10state.storage.gameId ∧
    (onAsk C10state C10env).1.err = some C10err ∧
    (onAsk C10state C10env).1.messages =
      C10state.messages ++ [{ id := C10env.userMsgId, role := ChatRole.user,
                              content := jsTrim C10state.query,
                              createdAt := C10env.userNow,
                              sources := none, interaction_id := none }] ∧
    (onAsk C10state C10env).1.storage.messages =
      some ((onAsk C10state C10env).1.messages) ∧
    (onAsk C10state C10env).1.query = "" ∧
    (onAsk C10state C10env).1.loading = false ∧
    (onAsk C10state C10env).1.gameId = C10state.gameId ∧
    (onAsk C10state C10env).1.spoilerLevel = C10state.spoilerLevel ∧
    (onAsk C10state C10env).1.sourcesForMessageId = C10state.sourcesForMessageId :=
  C10_failed_ask_frame C10state C10env C10err (by decide) (by decide) rfl rfl

/-- C5: a structured object response whose session_id or thread_id fails the
UUID check makes ragAnswer fail with the normalized error named RagApiError,
message Backend response missing session_id/thread_id, status 500 and the raw
response as body; and an ask whose gateway call fails appends no assistant
message to the conversation log. -/
theorem C5_missing_ids :
    (∀ (req : RagAnswerRequest) (invoke : List (String × JsValue) → InvokeResult),
        (invoke (ragAnswerBody req)).error = none →
        jsTruthy (invoke (ragAnswerBody req)).data = true →
        jsTypeof (invoke (ragAnswerBody req)).data = "object" →
        (isValidUuid ((invoke (ragAnswerBody req)).data.getProp "session_id") = false ∨
         isValidUuid ((invoke (ragAnswerBody req)).data.getProp "thread_id") = false) →
        ragAnswer req invoke = Except.error
          { name := "RagApiError",
            message := "Backend response missing session_id/thread_id",
            status := some 500, statusText := none,
            body := some (invoke (ragAnswerBody req)).data }) ∧
    (∀ (st : ControllerState) (env : AskEnv) (e : RagApiError),
        env.outcome = Except.error e →
        ((onAsk st env).1.messages.filter (fun m => m.role == ChatRole.assistant)) =
          st.messages.filter (fun m => m.role == ChatRole.assistant)) := by
  constructor
  · intro req invoke he ht hobj hid
    have h1 : ¬(jsTruthy (invoke (ragAnswerBody req)).data = false ∨
        jsTypeof (invoke (ragAnswerBody req)).data ≠ "object") := by
      rintro (h | h)
      · rw [ht] at h
        exact absurd h (by simp)
      · exact h hobj
    simp only [ragAnswer, he]
    rw [if_neg h1, if_pos hid]
  · intro st env e he
    by_cases hguard : jsTrim st.query = "" ∨ st.sessionId = "" ∨ st.loading = true
    · simp only [onAsk]
      rw [if_pos hguard]
    · simp only [onAsk, if_neg hguard, he]
      simp [List.filter_append, List.filter]
      rfl

def C5req : RagAnswerRequest :=
  { sessionId := "s1", threadId := none, query := "q", spoilerLevel := 33,
    matchCount := none, docFilter := none, developerMode := none }

def C5invoke : List (String × JsValue) → InvokeResult :=
  fun _ => { data := JsValue.obj [("ok", JsValue.bool true)], error := none }

def C5err : RagApiError :=
  { name := "RagApiError", message := "Request failed",
    status := none, statusText := none, body := none }

def C5state : ControllerState :=
  { sessionId := "s5", threadId := none, gameId := "valheim", spoilerLevel := 33,
    query := "frage", loading := false, err := none, messages := [],
    sourcesForMessageId := none,
    storage := { session := some "s5", thread := none, messages := some [],
                 gameId := none } }

def C5env : AskEnv :=
  { userMsgId := "u5", userNow := 0, outcome := Except.error C5err,
    assistantMsgId := "a5", assistantNow := 0 }

/-- C5 witness: a concrete object response carrying no identifiers, and a
concrete failed ask appending no assistant message. -/
theorem C5_missing_ids_witness :
    ragAnswer C5req C5invoke = Except.error
      { name := "RagApiError",
        message := "Backend response missing session_id/thread_id",
        status := some 500, statusText := none,
        body := some (C5invoke (ragAnswerBody C5req)).data } ∧
    ((onAsk C5state C5env).1.messages.filter (fun m => m.role == ChatRole.assistant)) =
      C5state.messages.filter (fun m => m.role == ChatRole.assistant) :=
  ⟨C5_missing_ids.1 C5req C5invoke rfl rfl rfl (Or.inl rfl),
   C5_missing_ids.2 C5state C5env C5err rfl⟩

theorem thread_id_not_mem_matchCountField (mc : Option ℚ) :
    "thread_id" ∉ (matchCountField mc).map Prod.fst := by
  cases mc <;> simp [matchCountField]

theorem thread_id_not_mem_docFilterField (df : Option (Option String)) :
    "thread_id" ∉ (docFilterField df).map Prod.fst := by
  rcases df with _ | (_ | _) <;> simp [docFilterField]

theorem thread_id_not_mem_developerModeField (dm : Option Bool) :
    "thread_id" ∉ (developerModeField dm).map Prod.fst := by
  cases dm <;> simp [developerModeField]

theorem thread_id_mem_threadIdField (tid : Option String) :
    "thread_id" ∈ (threadIdField tid).map Prod.fst ↔
      ∃ t, tid = some t ∧ isValidUuid (JsValue.str t) = true := by
  cases tid with
  | none => simp [threadIdField]
  | some t =>
    by_cases hv : isValidUuid (JsValue.str t) = true
    · have hne : t ≠ "" := by
        intro he
        subst he
        rw [show isValidUuid (JsValue.str "") = false from rfl] at hv
        exact absurd hv (by simp)
      simp only [threadIdField]
      rw [if_pos ⟨hne, hv⟩]
      simp [hv]
    · have hcond : ¬(t ≠ "" ∧ isValidUuid (JsValue.str t) = true) := fun h => hv h.2
      simp only [threadIdField]
      rw [if_neg hcond]
      simp [hv]

/-- C6: the outbound body contains the field thread_id exactly when a thread
id was supplied and passes the UUID check; a supplied malformed thread id
yields the same body, and the same gateway outcome, as an absent one, so it
is silently omitted and never causes an error. -/
theorem C6_thread_id_policy :
    (∀ req : RagAnswerRequest,
        ("thread_id" ∈ (ragAnswerBody req).map Prod.fst ↔
          ∃ t, req.threadId = some t ∧ isValidUuid (JsValue.str t) = true)) ∧
    (∀ (req : RagAnswerRequest) (t : String)
        (invoke : List (String × JsValue) → InvokeResult),
        req.threadId = some t → isValidUuid (JsValue.str t) = false →
        ragAnswerBody req = ragAnswerBody { req with threadId := none } ∧
        ragAnswer req invoke = ragAnswer { req with threadId := none } invoke) := by
  constructor
  · intro req
    obtain ⟨sid, tid, q, sl, mc, df, dm⟩ := req
    cases tid with
    | none =>
        cases mc <;> rcases df with _ | (_ | _) <;> cases dm <;>
          simp [ragAnswerBody, threadIdField, matchCountField, docFilterField,
            developerModeField]
    | some t =>
        by_cases hv : isValidUuid (JsValue.str t) = true
        · have hne : t ≠ "" := by
            intro he
            subst he
            rw [show isValidUuid (JsValue.str "") = false from rfl] at hv
            exact absurd hv (by simp)
          cases mc <;> rcases df with _ | (_ | _) <;> cases dm <;>
            · simp only [ragAnswerBody, threadIdField, matchCountField,
                docFilterField, developerModeField]
              rw [if_pos ⟨hne, hv⟩]
              simp [hv]
        · have hcond : ¬(t ≠ "" ∧ isValidUuid (JsValue.str t) = true) := fun h => hv h.2
          cases mc <;> rcases df with _ | (_ | _) <;> cases dm <;>
            · simp only [ragAnswerBody, threadIdField, matchCountField,
                docFilterField, developerModeField]
              rw [if_neg hcond]
              simp [hv]
  · intro req t invoke hthread hv
    have hcond : ¬(t ≠ "" ∧ isValidUuid (JsValue.str t) = true) := by
      rintro ⟨_, h⟩
      rw [hv] at h
      exact absurd h (by simp)
    have hb : ragAnswerBody req = ragAnswerBody { req with threadId := none } := by
      obtain ⟨sid, tid, q, sl, mc, df, dm⟩ := req
      dsimp only at hthread
      subst hthread
      simp only [ragAnswerBody, threadIdField]
      rw [if_neg hcond]
    exact ⟨hb, by simp only [ragAnswer, hb]⟩

def C6req : RagAnswerRequest :=
  { sessionId := "s1", threadId := some "not-a-uuid", query := "q", spoilerLevel := 33,
    matchCount := none, docFilter := none, developerMode := none }

def C6invoke : List (String × JsValue) → InvokeResult :=
  fun _ => { data := JsValue.null, error := none }

/-- C6 witness: a concrete malformed thread id is dropped from the body and
does not change the gateway outcome. -/
theorem C6_thread_id_policy_witness :
    ragAnswerBody C6req = ragAnswerBody { C6req with threadId := none } ∧
    ragAnswer C6req C6invoke = ragAnswer { C6req with threadId := none } C6invoke :=
  C6_thread_id_policy.2 C6req "not-a-uuid" C6invoke rfl (by decide)

theorem dedupeSources_take_stable (xs : List RagSource) (n : ℕ) :
    dedupeSources ((dedupeSources xs).take n) = (dedupeSources xs).take n := by
  apply dedupeGo_eq_self
  · exact fun x _ => List.not_mem_nil _
  · rw [List.map_take]
    exact (dedupeGo_keys_nodup [] xs).sublist (List.take_sublist _ _)

/-- C1 counterexample: a successful response carrying 9 sources with distinct
urls; the assistant message stored in the log keeps only the first 8
deduplicated records, so records beyond the cap of 8 are discarded from the
stored message data. -/
def C1sources : List RagSource :=
  [srcU "a", srcU "b", srcU "c", srcU "d", srcU "e", srcU "f", srcU "g",
   srcU "h", srcU "i"]

def C1data : RagAnswerResult :=
  { ok := true, session_id := "sid-2", thread_id := "tid-2",
    answer := some "answer", sources := some C1sources, interaction_id := none }

def C1state : ControllerState :=
  { sessionId := "s1", threadId := none, gameId := "valheim", spoilerLevel := 33,
    query := "wo ist die schmiede", loading := false, err := none, messages := [],
    sourcesForMessageId := none,
    storage := { session := some "s1", thread := none, messages := some [],
                 gameId := some "valheim" } }

def C1env : AskEnv :=
  { userMsgId := "u1", userNow := 0, outcome := Except.ok C1data,
    assistantMsgId := "a1", assistantNow := 1 }

theorem C1_stored_sources_counterexample :
    ((onAsk C1state C1env).1.messages.map ChatMessage.sources) =
      [none, some ((dedupeSources C1sources).take 8)] ∧
    ((dedupeSources C1sources).take 8).length = 8 ∧
    (dedupeSources C1sources).length = 9 := by decide

/-- C1 amended: for every successful ask, the assistant message stored in the
conversation log carries the deduplicated sources of the response truncated
to the first 8; the detail view (cap 8) shows exactly the stored list and the
inline view (cap 5) its first 5 entries, without altering the stored message
data; deduplicated records beyond the first 8 are discarded from the stored
message. -/
theorem C1_stored_sources (st : ControllerState) (env : AskEnv) (data : RagAnswerResult)
    (hq : jsTrim st.query ≠ "") (hs : st.sessionId ≠ "") (hl : st.loading = false)
    (ho : env.outcome = Except.ok data) :
    ((onAsk st env).1.messages.map ChatMessage.sources) =
      (st.messages.map ChatMessage.sources) ++
        [none, some ((dedupeSources (data.sources.getD [])).take 8)] ∧
    (∀ m : ChatMessage,
        m.sources = some ((dedupeSources (data.sources.getD [])).take 8) →
        inlineDisplaySources m = ((dedupeSources (data.sources.getD [])).take 8).take 5 ∧
        detailDisplaySources m = (dedupeSources (data.sources.getD [])).take 8) := by
  have hguard : ¬(jsTrim st.query = "" ∨ st.sessionId = "" ∨ st.loading = true) := by
    push_neg
    exact ⟨hq, hs, by simp [hl]⟩
  constructor
  · simp only [onAsk, if_neg hguard, ho]
    simp [List.map_append]
  · intro m hm
    constructor
    · rw [inlineDisplaySources, hm]
      simp only [Option.getD_some]
      rw [dedupeSources_take_stable]
    · rw [detailDisplaySources, hm]
      simp only [Option.getD_some]
      rw [dedupeSources_take_stable]
      simp [List.take_take]

/-- C1 witness: the stored-sources shape evaluated on the concrete
nine-source response. -/
theorem C1_stored_sources_witness :
    ((onAsk C1state C1env).1.messages.map ChatMessage.sources) =
      (C1state.messages.map ChatMessage.sources) ++
        [none, some ((dedupeSources (C1data.sources.getD [])).take 8)] :=
  (C1_stored_sources C1state C1env C1data (by decide) (by decide) rfl rfl).1

/-- C3 witness: the minimum-distance property evaluated at the midpoint 16.5
against the snap point 33. -/
theorem C3_snap_min_distance_witness :
    |clampSpoiler (33/2) - snapSpoilerLevel (33/2)| ≤ |clampSpoiler (33/2) - 33| :=
  (C3_snap_min_distance.1 (33/2) 33 (by simp [SPOILER_SNAP_POINTS])).1
